import Mathlib

/-!
Verification development for the offline image-stylization engine
(`src/utils/imageProcessing.ts`).

The engine operates on RGBA8 pixel buffers (`Uint8ClampedArray` of length
`4 * width * height`).  We embed a pixel as a record of four natural-number
channels, a buffer as a `List RGBA` in row-major order (index `y*w + x`),
and every arithmetic step of each kernel over `ℚ` following the source
formulas; a store into the clamped array is `clamp8`, the ECMAScript
`ToUint8Clamp` conversion (clamp to `[0,255]`, round half to even).
`Math.random()` calls are modelled as explicitly injected per-pixel values
(the spec's "ambient randomness must become an explicitly injected
random-number source").
-/

/-- An RGBA8 pixel: one entry of the `Uint8ClampedArray` per channel. -/
structure RGBA where
  r : ℕ
  g : ℕ
  b : ℕ
  a : ℕ
deriving DecidableEq, Repr

/-- Default pixel used for out-of-range reads (typed arrays yield undefined,
which never happens on in-range indices; all theorems stay in range). -/
def rgba0 : RGBA := ⟨0, 0, 0, 0⟩

/-- ECMAScript rounding used by `Uint8ClampedArray`: round to nearest,
ties to even. -/
def jsRound (q : ℚ) : ℤ :=
  if q - q.floor < 1/2 then q.floor
  else if 1/2 < q - q.floor then q.floor + 1
  else if q.floor % 2 = 0 then q.floor else q.floor + 1

/-- `ToUint8Clamp`: a store into a `Uint8ClampedArray` clamps to `[0,255]`
and rounds half to even. -/
def clamp8 (q : ℚ) : ℕ :=
  if q ≤ 0 then 0 else if 255 ≤ q then 255 else (jsRound q).toNat

/-- The luma weighting `0.299 R + 0.587 G + 0.114 B` used throughout. -/
def luma (r g b : ℚ) : ℚ := 0.299 * r + 0.587 * g + 0.114 * b

/-!
## Per-pixel kernels

One Lean function per loop body of the corresponding TypeScript filter
function.  A random draw `Math.random()` (uniform in `[0,1)`) becomes an
explicit argument `n : ℚ`; the thermal "paper jam" draw
(`Math.random() > 0.99`) becomes an explicit `Bool`.
-/

/-- Loop body of `applyAgedGazette` (ink `(45,40,40)`, paper `(245,238,215)`,
noise amplitude 20, contrast 1.5). -/
def kAgedGazette (n : ℚ) (p : RGBA) : RGBA :=
  let gray := luma p.r p.g p.b
  let noise := (n - 0.5) * 20
  let val := (gray + noise - 128) * 1.5 + 128
  let val := max 0 (min 255 val)
  let t := val / 255
  ⟨clamp8 (45 + (245 - 45) * t),
   clamp8 (40 + (238 - 40) * t),
   clamp8 (40 + (215 - 40) * t), p.a⟩

/-- Loop body of `applyNewspaperBW` (noise amplitude 30, contrast 2.0,
output clamped into `[15,245]` before the store). -/
def kNewspaperBW (n : ℚ) (p : RGBA) : RGBA :=
  let gray := luma p.r p.g p.b
  let noise := (n - 0.5) * 30
  let val := (gray + noise - 128) * 2.0 + 128
  let val := max 15 (min 245 val)
  ⟨clamp8 val, clamp8 val, clamp8 val, p.a⟩

/-- Loop body of `apply70sMagazine`. -/
def k70sMagazine (p : RGBA) : RGBA :=
  let r : ℚ := p.r
  let g : ℚ := p.g
  let b : ℚ := p.b
  let r := r * 1.08 + 10
  let g := g * 1.02 + 5
  let b := b * 0.92
  let r := r * 0.85 + 25
  let g := g * 0.85 + 25
  let b := b * 0.85 + 25
  let gray := luma r g b
  let r := gray + (r - gray) * 0.85
  let g := gray + (g - gray) * 0.85
  let b := gray + (b - gray) * 0.85
  ⟨clamp8 (min 255 (max 0 r)), clamp8 (min 255 (max 0 g)), clamp8 (min 255 (max 0 b)), p.a⟩

/-- Loop body of `apply80sGlossy` (contrast 1.3, saturation 1.6,
brightness 15, hard highlight clip above 235). -/
def k80sGlossy (p : RGBA) : RGBA :=
  let r : ℚ := p.r
  let g : ℚ := p.g
  let b : ℚ := p.b
  let gray := (r + g + b) / 3
  let r := gray + (r - gray) * 1.6
  let g := gray + (g - gray) * 1.6
  let b := gray + (b - gray) * 1.6
  let r := ((r - 128) * 1.3 + 128) + 15
  let g := ((g - 128) * 1.3 + 128) + 15
  let b := ((b - 128) * 1.3 + 128) + 15
  let r := if r > 235 then 255 else r
  let g := if g > 235 then 255 else g
  let b := if b > 235 then 255 else b
  ⟨clamp8 (min 255 (max 0 r)), clamp8 (min 255 (max 0 g)), clamp8 (min 255 (max 0 b)), p.a⟩

/-- Loop body of `apply90sGrunge`. -/
def k90sGrunge (p : RGBA) : RGBA :=
  let r : ℚ := p.r
  let g : ℚ := p.g
  let b : ℚ := p.b
  let r := r * 0.95
  let g := g * 1.05
  let b := b * 1.02
  let r := if r < 100 then r * 0.85 else r * 1.15
  let g := if g < 100 then g * 0.85 else g * 1.15
  let b := if b < 100 then b * 0.85 else b * 1.15
  ⟨clamp8 (min 255 (max 0 r)), clamp8 (min 255 (max 0 g)), clamp8 (min 255 (max 0 b)), p.a⟩

/-- Loop body of `applyBadPhotocopy` (threshold 110, noise amplitude 60). -/
def kBadPhotocopy (n : ℚ) (p : RGBA) : RGBA :=
  let gray := luma p.r p.g p.b
  let noise := (n - 0.5) * 60
  let val : ℚ := if gray + noise > 110 then 255 else 20
  ⟨clamp8 val, clamp8 val, clamp8 val, p.a⟩

/-- Loop body of `applyMimeograph` (ink `(60,20,120)`, paper `(240,240,255)`,
noise amplitude 15, contrast 1.5). -/
def kMimeograph (n : ℚ) (p : RGBA) : RGBA :=
  let gray := luma p.r p.g p.b
  let gray := gray + (n - 0.5) * 15
  let gray := (gray - 128) * 1.5 + 128
  let gray := max 0 (min 255 gray)
  let t := gray / 255
  ⟨clamp8 (60 + (240 - 60) * t),
   clamp8 (20 + (240 - 20) * t),
   clamp8 (120 + (255 - 120) * t), p.a⟩

/-- Loop body of `applyBlueprint` (dark `(0,30,85)`, light `(230,240,255)`,
contrast 2.0). -/
def kBlueprint (p : RGBA) : RGBA :=
  let gray := luma p.r p.g p.b
  let gray := (gray - 128) * 2.0 + 128
  let gray := max 0 (min 255 gray)
  let t := gray / 255
  ⟨clamp8 (0 + (230 - 0) * t),
   clamp8 (30 + (240 - 30) * t),
   clamp8 (85 + (255 - 85) * t), p.a⟩

/-- Loop body of `applyThermal`; `j` models the rare
(`Math.random() > 0.99`) "paper jam" pixel. -/
def kThermal (n : ℚ) (j : Bool) (p : RGBA) : RGBA :=
  let gray := luma p.r p.g p.b
  let gray := gray + (n - 0.5) * 30
  let val : ℚ := if gray > 130 then 240 else 20
  let val := if j then 200 else val
  ⟨clamp8 val, clamp8 val, clamp8 val, p.a⟩

/-- Loop body of `applyDV`; `odd` is the scan-line parity
(`y % 2 !== 0`). -/
def kDV (odd : Bool) (p : RGBA) : RGBA :=
  let r : ℚ := p.r
  let g : ℚ := p.g
  let b : ℚ := p.b
  let b := b * 1.05
  let r := r * 0.98
  let r := if odd then r * 0.75 else r
  let g := if odd then g * 0.75 else g
  let b := if odd then b * 0.75 else b
  ⟨clamp8 (max 0 (min 255 r)), clamp8 (max 0 (min 255 g)), clamp8 (max 0 (min 255 b)), p.a⟩

/-- Loop body of `applyPolaroid1` (lifted blacks, warm tint, greenish
shadows). -/
def kPolaroid1 (p : RGBA) : RGBA :=
  let r : ℚ := p.r
  let g : ℚ := p.g
  let b : ℚ := p.b
  let r := 25 + r * 0.85
  let g := 25 + g * 0.85
  let b := 25 + b * 0.85
  let r := r + 20
  let g := g + 10
  let b := b - 5
  let g := if r < 100 then g + 5 else g
  let b := if r < 100 then b + 5 else b
  ⟨clamp8 (min 255 (max 0 r)), clamp8 (min 255 (max 0 g)), clamp8 (min 255 (max 0 b)), p.a⟩

/-- Loop body of `applyPolaroid2` (heavy fade, magenta shift). -/
def kPolaroid2 (p : RGBA) : RGBA :=
  let r : ℚ := p.r
  let g : ℚ := p.g
  let b : ℚ := p.b
  let r := 40 + r * 0.75
  let g := 40 + g * 0.75
  let b := 40 + b * 0.75
  let r := r + 15
  let b := b + 10
  let g := g - 10
  ⟨clamp8 (min 255 (max 0 r)), clamp8 (min 255 (max 0 g)), clamp8 (min 255 (max 0 b)), p.a⟩

/-- Loop body of `applyPolaroid3` (high contrast, cool shift, slight
desaturation). -/
def kPolaroid3 (p : RGBA) : RGBA :=
  let r : ℚ := p.r
  let g : ℚ := p.g
  let b : ℚ := p.b
  let r := (r - 128) * 1.2 + 128
  let g := (g - 128) * 1.2 + 128
  let b := (b - 128) * 1.2 + 128
  let b := b + 20
  let r := r - 10
  let gray := (r + g + b) / 3
  let r := gray + (r - gray) * 0.8
  let g := gray + (g - gray) * 0.8
  let b := gray + (b - gray) * 0.8
  ⟨clamp8 (min 255 (max 0 r)), clamp8 (min 255 (max 0 g)), clamp8 (min 255 (max 0 b)), p.a⟩

/-- Body of the `applyComics60s` loop as a function of the pixel's position
inside its 4×4 halftone tile (`gridX = x % 4`, `gridY = y % 4`).  The
source compares `dist = sqrt(distSq)` with `threshold`; since `dist ≥ 0`,
`dist < threshold` is equivalent to `0 < threshold ∧ distSq < threshold²`,
which is how the square root is encoded here. -/
def kComics60Grid (gridX gridY : ℕ) (p : RGBA) : RGBA :=
  let r : ℚ := ((p.r / 64) * 64 : ℕ)
  let g : ℚ := ((p.g / 64) * 64 : ℕ)
  let b : ℚ := ((p.b / 64) * 64 : ℕ)
  let gray := (r + g + b) / 3
  let r := gray + (r - gray) * 1.5
  let g := gray + (g - gray) * 1.5
  let b := gray + (b - gray) * 1.5
  let centerX : ℚ := 4 / 2
  let centerY : ℚ := 4 / 2
  let distSq := ((gridX : ℚ) - centerX) ^ 2 + ((gridY : ℚ) - centerY) ^ 2
  let luminance := (0.299 * r + 0.587 * g + 0.114 * b) / 255
  let threshold := (1 - luminance) * (4 / 1.2)
  let ink := 0 < threshold ∧ distSq < threshold ^ 2
  let r := if ink then 20 else min 255 (r + (245 - 255) * 0.2)
  let g := if ink then 20 else min 255 (g + (235 - 255) * 0.2)
  let b := if ink then 40 else min 255 (b + (210 - 255) * 0.2)
  ⟨clamp8 (max 0 (min 255 r)), clamp8 (max 0 (min 255 g)), clamp8 (max 0 (min 255 b)), p.a⟩

/-- Loop body of `applyComics60s` at absolute position `(x, y)`: the source
computes `gridX = x % dotSize`, `gridY = y % dotSize` with `dotSize = 4`. -/
def kComics60 (x y : ℕ) (p : RGBA) : RGBA :=
  kComics60Grid (x % 4) (y % 4) p

/-- Mean of the three color channels, used by `applyComics80s` as its
luma proxy. -/
def avg3 (p : RGBA) : ℚ := ((p.r : ℚ) + p.g + p.b) / 3

/-- Non-edge branch of `applyComics80s`: saturation boost (1.4) then
contrast boost (1.2) of the snapshot pixel. -/
def kComics80Flat (p : RGBA) : RGBA :=
  let r : ℚ := p.r
  let g : ℚ := p.g
  let b : ℚ := p.b
  let gray := (r + g + b) / 3
  let r := gray + (r - gray) * 1.4
  let g := gray + (g - gray) * 1.4
  let b := gray + (b - gray) * 1.4
  let r := (r - 128) * 1.2 + 128
  let g := (g - 128) * 1.2 + 128
  let b := (b - 128) * 1.2 + 128
  ⟨clamp8 (max 0 (min 255 r)), clamp8 (max 0 (min 255 g)), clamp8 (max 0 (min 255 b)), p.a⟩

/-!
## Buffer-level stages

A buffer is a `List RGBA` in row-major order; the canvas guarantees
`length = width * height`.  Single-pass filters iterate over the flat
array (`List.map` / `mapNoise`); multi-pass filters iterate over
`y < h, x < w` (index `i = y*w + x`) reading a read-only snapshot `src`.
-/

/-- A single-pass loop that consumes one random draw per pixel. -/
def mapNoise (k : ℚ → RGBA → RGBA) (noise : ℕ → ℚ) (l : List RGBA) : List RGBA :=
  (List.range l.length).map fun i => k (noise i) (l.getD i rgba0)

/-- `applyAgedGazette(data)` with injected randomness. -/
def applyAgedGazette (noise : ℕ → ℚ) (l : List RGBA) : List RGBA :=
  mapNoise kAgedGazette noise l

/-- `applyNewspaperBW(data)` with injected randomness. -/
def applyNewspaperBW (noise : ℕ → ℚ) (l : List RGBA) : List RGBA :=
  mapNoise kNewspaperBW noise l

/-- `apply70sMagazine(data)`. -/
def apply70sMagazine (l : List RGBA) : List RGBA := l.map k70sMagazine

/-- `apply80sGlossy(data)`. -/
def apply80sGlossy (l : List RGBA) : List RGBA := l.map k80sGlossy

/-- `apply90sGrunge(data)`. -/
def apply90sGrunge (l : List RGBA) : List RGBA := l.map k90sGrunge

/-- `applyBadPhotocopy(data)` with injected randomness. -/
def applyBadPhotocopy (noise : ℕ → ℚ) (l : List RGBA) : List RGBA :=
  mapNoise kBadPhotocopy noise l

/-- `applyMimeograph(data)` with injected randomness. -/
def applyMimeograph (noise : ℕ → ℚ) (l : List RGBA) : List RGBA :=
  mapNoise kMimeograph noise l

/-- `applyBlueprint(data)`. -/
def applyBlueprint (l : List RGBA) : List RGBA := l.map kBlueprint

/-- `applyThermal(data)` with injected randomness (`noise` for the grain
draw, `jam` for the rare bright-pixel draw). -/
def applyThermal (noise : ℕ → ℚ) (jam : ℕ → Bool) (l : List RGBA) : List RGBA :=
  (List.range l.length).map fun i => kThermal (noise i) (jam i) (l.getD i rgba0)

/-- `applyPolaroid1(data)`. -/
def applyPolaroid1 (l : List RGBA) : List RGBA := l.map kPolaroid1

/-- `applyPolaroid2(data)`. -/
def applyPolaroid2 (l : List RGBA) : List RGBA := l.map kPolaroid2

/-- `applyPolaroid3(data)`. -/
def applyPolaroid3 (l : List RGBA) : List RGBA := l.map kPolaroid3

/-- `applyDV(data, w, h)`: iterates rows `y < h`, columns `x < w`
(`i = y*w + x`); the odd-line test is `y % 2 !== 0`. -/
def applyDV (w h : ℕ) (l : List RGBA) : List RGBA :=
  (List.range (w * h)).map fun i => kDV (decide ((i / w) % 2 ≠ 0)) (l.getD i rgba0)

/-- `applyComics60s(data, w, h)`. -/
def applyComics60s (w h : ℕ) (l : List RGBA) : List RGBA :=
  (List.range (w * h)).map fun i => kComics60 (i % w) (i / w) (l.getD i rgba0)

/-- Channel-shift offset of `applyMisaligned`:
`Math.max(2, Math.floor(w * 0.006))`. -/
def misalignedOffset (w : ℕ) : ℕ := max 2 (((w : ℚ) * 0.006).floor.toNat)

/-- `applyMisaligned(data, source, w, h)`: red is sampled from column
`x + offset` when that stays inside the row (else from the pixel's own
column), blue from `x - offset` when nonnegative (else the own column),
green unshifted; alpha is left as it was in `data` (a copy of `source`). -/
def applyMisaligned (w h : ℕ) (src : List RGBA) : List RGBA :=
  let offset := misalignedOffset w
  (List.range (w * h)).map fun i =>
    let x := i % w
    let y := i / w
    let p := src.getD i rgba0
    let r := if x + offset < w then (src.getD (y * w + (x + offset)) rgba0).r else p.r
    let g := p.g
    let b := if offset ≤ x then (src.getD (y * w + (x - offset)) rgba0).b else p.b
    ⟨r, g, b, p.a⟩

/-- `applyVHS(data, source, w, h)`: clamped red/blue shifts
(`shiftR = floor(w*0.01)`, `shiftB = floor(w*-0.005)`), then brightness
lift, contrast, and partial desaturation toward the video luma. -/
def applyVHS (w h : ℕ) (src : List RGBA) : List RGBA :=
  let shiftR : ℤ := ((w : ℚ) * 0.01).floor
  let shiftB : ℤ := ((w : ℚ) * (-0.005)).floor
  (List.range (w * h)).map fun i =>
    let x := i % w
    let y := i / w
    let p := src.getD i rgba0
    let xR := (min ((w : ℤ) - 1) ((x : ℤ) + shiftR)).toNat
    let xB := (max 0 ((x : ℤ) + shiftB)).toNat
    let r : ℚ := (src.getD (y * w + xR) rgba0).r
    let b : ℚ := (src.getD (y * w + xB) rgba0).b
    let g : ℚ := p.g
    let r := (r - 20) * 1.2
    let g := (g - 20) * 1.2
    let b := (b - 20) * 1.2
    let gray := r * 0.3 + g * 0.59 + b * 0.11
    let r := gray + (r - gray) * 0.8
    let g := gray + (g - gray) * 0.8
    let b := gray + (b - gray) * 0.8
    ⟨clamp8 (max 0 (min 255 r)), clamp8 (max 0 (min 255 g)), clamp8 (max 0 (min 255 b)), p.a⟩

/-- Edge test of `applyComics80s`: skipped on the last row and column
(`x < w - 1 && y < h - 1`); otherwise compares the snapshot's channel
mean against the right and bottom neighbours with threshold 30. -/
def comics80Edge (w h : ℕ) (src : List RGBA) (x y : ℕ) : Bool :=
  if x < w - 1 ∧ y < h - 1 then
    let current := avg3 (src.getD (y * w + x) rgba0)
    let right := avg3 (src.getD (y * w + (x + 1)) rgba0)
    let bottom := avg3 (src.getD ((y + 1) * w + x) rgba0)
    decide (|current - right| > 30 ∨ |current - bottom| > 30)
  else false

/-- `applyComics80s(data, source, w, h)`: edge pixels become near-black
ink `(10,10,15)`, all others get the saturation/contrast boost of the
snapshot pixel. -/
def applyComics80s (w h : ℕ) (src : List RGBA) : List RGBA :=
  (List.range (w * h)).map fun i =>
    let x := i % w
    let y := i / w
    let p := src.getD i rgba0
    if comics80Edge w h src x y then ⟨10, 10, 15, p.a⟩ else kComics80Flat p

/-- Per-pixel grain loop of `addPaperTexture` (the stain pass below it is
surface drawing, not a pixel-array kernel): with probability 1/2
(`coin`), add the same symmetric noise value to the three color
channels; alpha untouched. -/
def addPaperTexture (coin : ℕ → Bool) (rnd : ℕ → ℚ) (intensity : ℚ)
    (l : List RGBA) : List RGBA :=
  (List.range l.length).map fun i =>
    let p := l.getD i rgba0
    if coin i then
      let noise := (rnd i - 0.5) * 30 * intensity
      ⟨clamp8 (p.r + noise), clamp8 (p.g + noise), clamp8 (p.b + noise), p.a⟩
    else p

/-!
## Presets, the kernel stage of the pipeline, and the frame composer
-/

/-- The closed enumeration `FilterType` of the 17 presets
(dashes become camel case). -/
inductive FilterType where
  | newspaperBW
  | agedGazette
  | seventiesMag
  | eightiesPop
  | ninetiesWashed
  | badPhotocopy
  | mimeograph
  | blueprint
  | misaligned
  | thermal
  | vhsWorn
  | dvCam
  | comics60s
  | comics80s
  | polaroid1
  | polaroid2
  | polaroid3
deriving DecidableEq, Repr

/-- `filterType.startsWith('polaroid')`. -/
def isPolaroid (p : FilterType) : Bool :=
  match p with
  | .polaroid1 | .polaroid2 | .polaroid3 => true
  | _ => false

/-- The pixel-array stage of `applyRetroFilter`: the single-pass dispatch
chain followed by the snapshot-copy dispatch (`misaligned`, `vhs-worn`,
`comics-80s` first take `copy = new Uint8ClampedArray(data)` and read
only from it).  Randomness is injected: `noise i` is the `i`-th pixel's
uniform draw, `jam i` the thermal bright-pixel draw. -/
def applyKernelStage (p : FilterType) (noise : ℕ → ℚ) (jam : ℕ → Bool)
    (w h : ℕ) (l : List RGBA) : List RGBA :=
  match p with
  | .agedGazette => applyAgedGazette noise l
  | .newspaperBW => applyNewspaperBW noise l
  | .seventiesMag => apply70sMagazine l
  | .badPhotocopy => applyBadPhotocopy noise l
  | .eightiesPop => apply80sGlossy l
  | .ninetiesWashed => apply90sGrunge l
  | .mimeograph => applyMimeograph noise l
  | .blueprint => applyBlueprint l
  | .thermal => applyThermal noise jam l
  | .dvCam => applyDV w h l
  | .comics60s => applyComics60s w h l
  | .polaroid1 => applyPolaroid1 l
  | .polaroid2 => applyPolaroid2 l
  | .polaroid3 => applyPolaroid3 l
  | .misaligned => applyMisaligned w h l
  | .vhsWorn => applyVHS w h l
  | .comics80s => applyComics80s w h l

/-- A drawing surface, modelled at the dimension level (the overlay
passes draw onto the same canvas and never change its size). -/
structure Canvas where
  width : ℕ
  height : ℕ
deriving DecidableEq, Repr

/-- Frame border: `Math.floor(Math.min(w, h) * 0.08)`. -/
def borderSize (w h : ℕ) : ℕ := (((min w h : ℕ) : ℚ) * 0.08).floor.toNat

/-- Iconic thick bottom: `Math.floor(Math.min(w, h) * 0.35)`. -/
def bottomSize (w h : ℕ) : ℕ := (((min w h : ℕ) : ℚ) * 0.35).floor.toNat

/-- `composePolaroidFrame(sourceCanvas, filterType)` at the dimension
level.  `ctxOk` tells whether `canvas.getContext('2d')` on the freshly
allocated frame canvas succeeds; on failure the source reads
`if (!ctx) return sourceCanvas;` — the unframed photo is returned as the
result of the composition. -/
def composePolaroidFrame (ctxOk : Bool) (source : Canvas) : Canvas :=
  let w := source.width
  let h := source.height
  let frameW := w + borderSize w h * 2
  let frameH := h + borderSize w h + bottomSize w h
  if ctxOk then ⟨frameW, frameH⟩ else source

/-- `applyRetroFilter` at the canvas/dimension level.  `ctxOk` is the
context acquisition on the working canvas (failure rejects the promise),
`frameCtxOk` the one inside `composePolaroidFrame`.  The pixel stage and
every overlay pass draw in place, so a non-polaroid run resolves with the
input dimensions; a polaroid run resolves with whatever canvas
`composePolaroidFrame` returns. -/
def applyRetroFilter (ctxOk frameCtxOk : Bool) (p : FilterType) (w h : ℕ) :
    Except String Canvas :=
  if ctxOk = false then .error "Could not get canvas context"
  else if isPolaroid p then .ok (composePolaroidFrame frameCtxOk ⟨w, h⟩)
  else .ok ⟨w, h⟩

/-- Reindexing a buffer by a list of pixel indices; a permutation of an
`n`-pixel buffer is `reindex l idx` for `idx` an enumeration of `0..n-1`. -/
def reindex (l : List RGBA) (idx : List ℕ) : List RGBA :=
  idx.map fun i => l.getD i rgba0

/-- The presets of the purity claim whose kernels really are per-pixel
functions (`dv-cam`, also listed there, is row-parity-dependent). -/
def purePresets : List FilterType :=
  [.seventiesMag, .eightiesPop, .ninetiesWashed,
   .polaroid1, .polaroid2, .polaroid3, .blueprint]

/-- A 10×1 test row with distinct per-pixel red values (spec scenario 5). -/
def misalignedRow : List RGBA :=
  [⟨0, 0, 0, 255⟩, ⟨10, 0, 0, 255⟩, ⟨20, 0, 0, 255⟩, ⟨30, 0, 0, 255⟩,
   ⟨40, 0, 0, 255⟩, ⟨50, 0, 0, 255⟩, ⟨60, 0, 0, 255⟩, ⟨70, 0, 0, 255⟩,
   ⟨80, 0, 0, 255⟩, ⟨90, 0, 0, 255⟩]

/-- A 1×2 test image (two scan lines of one pixel each) with distinct
red values, used to exhibit the row-parity dependence of `dv-cam`. -/
def dvColumn : List RGBA := [⟨200, 0, 0, 255⟩, ⟨100, 0, 0, 255⟩]

/-!
## Basic lemmas about the embedding primitives
-/

/-- `Rat.floor` (the executable floor used in the definitions) agrees
with the floor of the linear ordered field `ℚ`. -/
theorem ratFloor_eq_floor (q : ℚ) : q.floor = ⌊q⌋ := by
  rw [Rat.floor_def', Rat.floor_def]

/-- A store into a `Uint8ClampedArray` never exceeds 255. -/
theorem clamp8_le (q : ℚ) : clamp8 q ≤ 255 := by
  unfold clamp8
  split
  · omega
  split
  · omega
  · rename_i h0 h255
    have hf : q.floor ≤ 254 := by
      rw [ratFloor_eq_floor]
      have h1 : (⌊q⌋ : ℚ) ≤ q := Int.floor_le q
      have h2 : (⌊q⌋ : ℚ) < 255 := lt_of_le_of_lt h1 (lt_of_not_le h255)
      have h3 : ⌊q⌋ < (255 : ℤ) := by exact_mod_cast h2
      omega
    have hr : jsRound q ≤ q.floor + 1 := by
      unfold jsRound
      split
      · omega
      split
      · omega
      split
      · omega
      · omega
    omega

/-- Reading position `i < n` of a buffer built by mapping over
`List.range n`. -/
theorem getD_range_map (f : ℕ → RGBA) (n i : ℕ) (h : i < n) (d : RGBA) :
    ((List.range n).map f).getD i d = f i := by
  rw [List.getD_eq_getElem _ _ (by simpa using h)]
  simp

/-- Row-major index arithmetic: column recovery. -/
theorem rowmajor_mod (w x y : ℕ) (hx : x < w) : (y * w + x) % w = x := by
  rw [Nat.add_comm, Nat.add_mul_mod_self_right, Nat.mod_eq_of_lt hx]

/-- Row-major index arithmetic: row recovery. -/
theorem rowmajor_div (w x y : ℕ) (hx : x < w) : (y * w + x) / w = y := by
  rw [Nat.add_comm, Nat.add_mul_div_right _ _ (Nat.pos_of_ne_zero (by omega)),
    Nat.div_eq_of_lt hx]
  omega

/-- A row-major index is inside the flat buffer. -/
theorem rowmajor_lt (w h x y : ℕ) (hx : x < w) (hy : y < h) :
    y * w + x < w * h := by
  calc y * w + x < y * w + w := by omega
  _ = (y + 1) * w := by ring
  _ ≤ h * w := Nat.mul_le_mul_right w hy
  _ = w * h := Nat.mul_comm h w

/-- A `getD` read is an element of the list or the default. -/
theorem getD_mem_or_default (l : List RGBA) (i : ℕ) (d : RGBA) :
    l.getD i d ∈ l ∨ l.getD i d = d := by
  by_cases h : i < l.length
  · left
    rw [List.getD_eq_getElem _ _ h]
    exact List.getElem_mem h
  · right
    exact List.getD_eq_default _ _ (by omega)

/-- Mapping a per-pixel function under `getD`, inside the bound. -/
theorem getD_map_of_lt (k : RGBA → RGBA) (l : List RGBA) (i : ℕ)
    (h : i < l.length) (d d' : RGBA) :
    (l.map k).getD i d = k (l.getD i d') := by
  rw [List.getD_eq_getElem _ _ (by simpa using h), List.getD_eq_getElem _ _ h]
  simp

/-- Alpha preservation transfers along `List.map`. -/
theorem alpha_map_of_kernel (k : RGBA → RGBA) (hk : ∀ p, (k p).a = p.a)
    (l : List RGBA) :
    (l.map k).map (fun q => q.a) = l.map (fun q => q.a) := by
  rw [List.map_map]
  exact List.map_congr_left fun p _ => hk p

/-- Alpha preservation for a stage built by mapping over `List.range n`
when the stage keeps each pixel's alpha. -/
theorem alpha_range (n : ℕ) (g : ℕ → RGBA) (l : List RGBA) (hl : l.length = n)
    (hg : ∀ i, i < n → (g i).a = (l.getD i rgba0).a) :
    ((List.range n).map g).map (fun q => q.a) = l.map (fun q => q.a) := by
  apply List.ext_getElem
  · simp [hl]
  intro i h1 h2
  simp only [List.getElem_map, List.getElem_range]
  rw [hg i (by simpa [hl] using h2), List.getD_eq_getElem _ _ (by simpa using h2)]

/-- C10: every pixel-array kernel of every preset — the single-pass
kernels, the multi-pass kernels (`misaligned`, `vhs-worn`, `comics-80s`,
`dv-cam`, `comics-60s`) and the paper-grain loop of `addPaperTexture` —
writes only the three color channels: the output alpha at each pixel
equals the input alpha at that pixel. -/
theorem c10_alpha_preserved :
    (∀ (p : FilterType) (noise : ℕ → ℚ) (jam : ℕ → Bool) (w h : ℕ)
        (l : List RGBA), l.length = w * h →
      (applyKernelStage p noise jam w h l).map (fun q => q.a) =
        l.map (fun q => q.a)) ∧
    (∀ (coin : ℕ → Bool) (rnd : ℕ → ℚ) (intensity : ℚ) (l : List RGBA),
      (addPaperTexture coin rnd intensity l).map (fun q => q.a) =
        l.map (fun q => q.a)) := by
  constructor
  · intro p noise jam w h l hl
    cases p
    case newspaperBW =>
      exact alpha_range l.length _ l rfl (fun i hi => rfl)
    case agedGazette =>
      exact alpha_range l.length _ l rfl (fun i hi => rfl)
    case seventiesMag =>
      exact alpha_map_of_kernel k70sMagazine (fun q => rfl) l
    case eightiesPop =>
      exact alpha_map_of_kernel k80sGlossy (fun q => rfl) l
    case ninetiesWashed =>
      exact alpha_map_of_kernel k90sGrunge (fun q => rfl) l
    case badPhotocopy =>
      exact alpha_range l.length _ l rfl (fun i hi => rfl)
    case mimeograph =>
      exact alpha_range l.length _ l rfl (fun i hi => rfl)
    case blueprint =>
      exact alpha_map_of_kernel kBlueprint (fun q => rfl) l
    case misaligned =>
      exact alpha_range (w * h) _ l hl (fun i hi => rfl)
    case thermal =>
      exact alpha_range l.length _ l rfl (fun i hi => rfl)
    case vhsWorn =>
      exact alpha_range (w * h) _ l hl (fun i hi => rfl)
    case dvCam =>
      exact alpha_range (w * h) _ l hl (fun i hi => rfl)
    case comics60s =>
      exact alpha_range (w * h) _ l hl (fun i hi => rfl)
    case comics80s =>
      refine alpha_range (w * h) _ l hl (fun i hi => ?_)
      dsimp only
      split <;> rfl
    case polaroid1 =>
      exact alpha_map_of_kernel kPolaroid1 (fun q => rfl) l
    case polaroid2 =>
      exact alpha_map_of_kernel kPolaroid2 (fun q => rfl) l
    case polaroid3 =>
      exact alpha_map_of_kernel kPolaroid3 (fun q => rfl) l
  · intro coin rnd intensity l
    refine alpha_range l.length _ l rfl (fun i hi => ?_)
    dsimp only
    split <;> rfl

/-- Witness for C10 at a concrete 2×1 buffer and the `misaligned` preset. -/
theorem c10_witness :
    (applyKernelStage FilterType.misaligned (fun _ => 0) (fun _ => false) 2 1
        ([⟨1, 2, 3, 9⟩, ⟨4, 5, 6, 7⟩] : List RGBA)).map (fun q => q.a) =
      ([⟨1, 2, 3, 9⟩, ⟨4, 5, 6, 7⟩] : List RGBA).map (fun q => q.a) :=
  c10_alpha_preserved.1 FilterType.misaligned (fun _ => 0) (fun _ => false) 2 1
    ([⟨1, 2, 3, 9⟩, ⟨4, 5, 6, 7⟩] : List RGBA) (by decide)

/-- C1: the claim says that when the frame composer cannot acquire the
destination drawing surface the pipeline invocation errors and never
returns the unframed processed photo.  The code does the opposite:
`composePolaroidFrame` returns `sourceCanvas` when `getContext` fails, and
`applyRetroFilter` resolves successfully with it — for every polaroid
preset and every input size, the result is `ok` with the unframed
dimensions, not an error. -/
theorem c1_polaroid_ctx_failure_returns_unframed (p : FilterType) (w h : ℕ)
    (hp : isPolaroid p = true) :
    applyRetroFilter true false p w h = Except.ok ⟨w, h⟩ := by
  simp [applyRetroFilter, hp, composePolaroidFrame]

/-- Witness for C1: `polaroid-1` on a 100×100 photo with frame-context
acquisition failing resolves with the unframed 100×100 canvas. -/
theorem c1_witness :
    applyRetroFilter true false FilterType.polaroid1 100 100 =
      Except.ok ⟨100, 100⟩ :=
  c1_polaroid_ctx_failure_returns_unframed FilterType.polaroid1 100 100 rfl

/-- C4: non-instant-film presets preserve `(width, height)` exactly;
every polaroid preset produces `w + 2*floor(min(w,h)*0.08)` by
`h + floor(min(w,h)*0.08) + floor(min(w,h)*0.35)`. -/
theorem c4_dimension_invariants (p : FilterType) (w h : ℕ) :
    (isPolaroid p = false → applyRetroFilter true true p w h = Except.ok ⟨w, h⟩) ∧
    (isPolaroid p = true →
      applyRetroFilter true true p w h =
        Except.ok ⟨w + 2 * borderSize w h, h + borderSize w h + bottomSize w h⟩) := by
  constructor
  · intro hp
    simp [applyRetroFilter, hp]
  · intro hp
    simp [applyRetroFilter, hp, composePolaroidFrame]
    omega

/-- Witness for C4: a 100×100 input through `polaroid-1` yields a 116×143
output (`floor(100*0.08) = 8`, `floor(100*0.35) = 35`). -/
theorem c4_witness :
    applyRetroFilter true true FilterType.polaroid1 100 100 =
      Except.ok ⟨116, 143⟩ := by
  have h := (c4_dimension_invariants FilterType.polaroid1 100 100).2 rfl
  rw [h]
  simp only [Except.ok.injEq]
  with_unfolding_all decide

/-- C7: the blueprint transform on a 2×2 solid mid-gray (128,128,128,255)
image gives four equal pixels: `gray = (128-128)*2+128 = 128`,
`t = 128/255`, and the dark/light interpolation lands on
`(115, 135, 170)` after the clamped store. -/
theorem c7_blueprint_midgray :
    applyKernelStage FilterType.blueprint (fun _ => 0) (fun _ => false) 2 2
      (List.replicate 4 ⟨128, 128, 128, 255⟩) =
      List.replicate 4 ⟨115, 135, 170, 255⟩ := by
  with_unfolding_all decide

/-- C8: the newspaper-bw transform with the noise term forced to zero
(raw draw `1/2`, so `(1/2 - 0.5) * 30 = 0`) on a single white pixel:
`gray = 255`, contrast `(255-128)*2+128 = 382`, clamped to 245 on all
three color channels. -/
theorem c8_newspaper_white :
    applyKernelStage FilterType.newspaperBW (fun _ => 1/2) (fun _ => false) 1 1
      [⟨255, 255, 255, 255⟩] = [⟨245, 245, 245, 255⟩] := by
  with_unfolding_all decide

/-- C2 counterexample: the claim states the red channel is sampled at
column `min(x+offset, w-1)` (clamped at the right edge).  On a 10×1 row
with distinct reds (`offset = max(2, floor(10*0.006)) = 2`), at `x = 8`
the code keeps the pixel's own red (column 8, value 80) because
`8 + 2 < 10` fails, while the claimed clamp would read column
`min(10, 9) = 9` (value 90). -/
theorem c2_counterexample :
    ((applyMisaligned 10 1 misalignedRow).getD 8 rgba0).r ≠
      (misalignedRow.getD (min (8 + misalignedOffset 10) (10 - 1)) rgba0).r := by
  with_unfolding_all decide

/-- C2 (amended): for the misaligned preset, the output red at `(x,y)` is
the snapshot red at column `x+offset` when `x+offset < w` and at the
pixel's own column `x` otherwise (no clamp to `w-1`); the blue is the
snapshot blue at `x-offset` when `offset ≤ x` and at column `x`
otherwise; green and alpha are unshifted. -/
theorem c2_misaligned_channels (w h x y : ℕ) (l : List RGBA)
    (hx : x < w) (hy : y < h) :
    ((applyMisaligned w h l).getD (y * w + x) rgba0).r =
      (l.getD (y * w + (if x + misalignedOffset w < w then x + misalignedOffset w else x))
        rgba0).r ∧
    ((applyMisaligned w h l).getD (y * w + x) rgba0).g =
      (l.getD (y * w + x) rgba0).g ∧
    ((applyMisaligned w h l).getD (y * w + x) rgba0).b =
      (l.getD (y * w + (if misalignedOffset w ≤ x then x - misalignedOffset w else x))
        rgba0).b ∧
    ((applyMisaligned w h l).getD (y * w + x) rgba0).a =
      (l.getD (y * w + x) rgba0).a := by
  have hi : y * w + x < w * h := rowmajor_lt w h x y hx hy
  simp only [applyMisaligned]
  rw [getD_range_map _ _ _ hi]
  simp only [rowmajor_mod w x y hx, rowmajor_div w x y hx]
  refine ⟨?_, ?_, ?_, ?_⟩
  · by_cases hc : x + misalignedOffset w < w <;> simp [hc]
  · trivial
  · by_cases hc : misalignedOffset w ≤ x <;> simp [hc]
  · trivial

/-- Witness for C2 at `w = 10, h = 1, x = 3, y = 0` on the distinct-red
test row: red comes from column 5, blue from column 1, green unshifted. -/
theorem c2_witness :
    ((applyMisaligned 10 1 misalignedRow).getD (0 * 10 + 3) rgba0).r =
      (misalignedRow.getD
        (0 * 10 + (if 3 + misalignedOffset 10 < 10 then 3 + misalignedOffset 10 else 3))
        rgba0).r ∧
    ((applyMisaligned 10 1 misalignedRow).getD (0 * 10 + 3) rgba0).g =
      (misalignedRow.getD (0 * 10 + 3) rgba0).g ∧
    ((applyMisaligned 10 1 misalignedRow).getD (0 * 10 + 3) rgba0).b =
      (misalignedRow.getD
        (0 * 10 + (if misalignedOffset 10 ≤ 3 then 3 - misalignedOffset 10 else 3))
        rgba0).b ∧
    ((applyMisaligned 10 1 misalignedRow).getD (0 * 10 + 3) rgba0).a =
      (misalignedRow.getD (0 * 10 + 3) rgba0).a :=
  c2_misaligned_channels 10 1 3 0 misalignedRow (by decide) (by decide)

/-- C6: for comics-80s, a pixel in the last row or last column is never
classified as an edge — whatever the buffer contains, the edge test is
false there and the output pixel is the non-edge saturation/contrast
boost of the snapshot pixel, not the near-black ink. -/
theorem c6_comics80_boundary (w h x y : ℕ) (src : List RGBA)
    (hx : x < w) (hy : y < h) (hxy : x = w - 1 ∨ y = h - 1) :
    comics80Edge w h src x y = false ∧
    (applyComics80s w h src).getD (y * w + x) rgba0 =
      kComics80Flat (src.getD (y * w + x) rgba0) := by
  have hedge : comics80Edge w h src x y = false := by
    unfold comics80Edge
    rw [if_neg]
    rcases hxy with hxe | hye
    · omega
    · omega
  refine ⟨hedge, ?_⟩
  have hi : y * w + x < w * h := rowmajor_lt w h x y hx hy
  simp only [applyComics80s]
  rw [getD_range_map _ _ _ hi]
  simp only [rowmajor_mod w x y hx, rowmajor_div w x y hx, hedge]
  simp

/-- Witness for C6 on a high-contrast 2×2 buffer at the last-column pixel
`(1, 0)`. -/
theorem c6_witness :
    comics80Edge 2 2
        ([⟨0, 0, 0, 255⟩, ⟨255, 255, 255, 255⟩,
          ⟨255, 255, 255, 255⟩, ⟨0, 0, 0, 255⟩] : List RGBA) 1 0 = false ∧
    (applyComics80s 2 2
        ([⟨0, 0, 0, 255⟩, ⟨255, 255, 255, 255⟩,
          ⟨255, 255, 255, 255⟩, ⟨0, 0, 0, 255⟩] : List RGBA)).getD (0 * 2 + 1) rgba0 =
      kComics80Flat
        (([⟨0, 0, 0, 255⟩, ⟨255, 255, 255, 255⟩,
           ⟨255, 255, 255, 255⟩, ⟨0, 0, 0, 255⟩] : List RGBA).getD (0 * 2 + 1) rgba0) :=
  c6_comics80_boundary 2 2 1 0 _ (by decide) (by decide) (Or.inl rfl)

/-- C9: comics-60s on a uniform image is determined by the position
inside the 4×4 halftone tile: two in-bounds positions with equal
`x mod 4` and `y mod 4` get identical output pixels, so the output is
spatially periodic with period 4 in both axes. -/
theorem c9_comics60_periodic (c : RGBA) (w h x y x' y' : ℕ)
    (hx : x < w) (hy : y < h) (hx' : x' < w) (hy' : y' < h)
    (hmx : x % 4 = x' % 4) (hmy : y % 4 = y' % 4) :
    (applyComics60s w h (List.replicate (w * h) c)).getD (y * w + x) rgba0 =
      (applyComics60s w h (List.replicate (w * h) c)).getD (y' * w + x') rgba0 := by
  have hi : y * w + x < w * h := rowmajor_lt w h x y hx hy
  have hi' : y' * w + x' < w * h := rowmajor_lt w h x' y' hx' hy'
  simp only [applyComics60s]
  rw [getD_range_map _ _ _ hi, getD_range_map _ _ _ hi']
  simp only [rowmajor_mod w x y hx, rowmajor_div w x y hx,
    rowmajor_mod w x' y' hx', rowmajor_div w x' y' hx']
  rw [List.getD_eq_getElem _ _ (by simpa using hi),
    List.getD_eq_getElem _ _ (by simpa using hi')]
  simp only [List.getElem_replicate]
  unfold kComics60
  rw [hmx, hmy]

/-- Witness for C9: on an 8×8 uniform black image, positions `(1,2)` and
`(5,6)` (equal tile coordinates) get the same output pixel. -/
theorem c9_witness :
    (applyComics60s 8 8 (List.replicate (8 * 8) ⟨0, 0, 0, 255⟩)).getD
        (2 * 8 + 1) rgba0 =
      (applyComics60s 8 8 (List.replicate (8 * 8) ⟨0, 0, 0, 255⟩)).getD
        (6 * 8 + 5) rgba0 :=
  c9_comics60_periodic ⟨0, 0, 0, 255⟩ 8 8 1 2 5 6 (by decide) (by decide)
    (by decide) (by decide) (by decide) (by decide)

/-- A per-pixel (`List.map`) stage commutes with reindexing by in-range
indices — the formal content of "permuting the input then applying the
kernel equals applying the kernel then permuting the output". -/
theorem map_reindex (k : RGBA → RGBA) (l : List RGBA) (idx : List ℕ)
    (hidx : ∀ i ∈ idx, i < l.length) :
    (reindex l idx).map k = reindex (l.map k) idx := by
  simp only [reindex, List.map_map]
  apply List.map_congr_left
  intro i hi
  simp only [Function.comp_apply]
  exact (getD_map_of_lt k l i (hidx i hi) rgba0 rgba0).symm

/-- C3 counterexample: the claim includes `dv-cam` among the presets whose
output pixel is a pure function of the input pixel only, but its kernel
darkens odd scan lines.  On a 1×2 image with reds 200 and 100, swapping
the two pixels before the stage does not equal swapping them after it
(`[98, 147]` versus `[74, 196]` on the red channel). -/
theorem c3_counterexample :
    applyKernelStage FilterType.dvCam (fun _ => 0) (fun _ => false) 1 2
        (reindex dvColumn [1, 0]) ≠
      reindex
        (applyKernelStage FilterType.dvCam (fun _ => 0) (fun _ => false) 1 2 dvColumn)
        [1, 0] := by
  with_unfolding_all decide

/-- C3 (amended): for every preset in {70s-mag, 80s-pop, 90s-washed,
polaroid-1, polaroid-2, polaroid-3, blueprint} — the claimed set minus
`dv-cam`, whose kernel is row-parity-dependent — the kernel stage
computes each output pixel from the corresponding input pixel only:
it commutes with every reindexing by in-range indices, in particular
with every permutation of the pixels. -/
theorem c3_pure_kernels_commute (p : FilterType) (hp : p ∈ purePresets)
    (noise : ℕ → ℚ) (jam : ℕ → Bool) (w h : ℕ) (l : List RGBA)
    (idx : List ℕ) (hidx : ∀ i ∈ idx, i < l.length) :
    applyKernelStage p noise jam w h (reindex l idx) =
      reindex (applyKernelStage p noise jam w h l) idx := by
  fin_cases hp
  · exact map_reindex k70sMagazine l idx hidx
  · exact map_reindex k80sGlossy l idx hidx
  · exact map_reindex k90sGrunge l idx hidx
  · exact map_reindex kPolaroid1 l idx hidx
  · exact map_reindex kPolaroid2 l idx hidx
  · exact map_reindex kPolaroid3 l idx hidx
  · exact map_reindex kBlueprint l idx hidx

/-- Witness for C3 on the blueprint preset: swapping the two pixels of a
1×2 buffer commutes with the kernel stage. -/
theorem c3_witness :
    applyKernelStage FilterType.blueprint (fun _ => 0) (fun _ => false) 1 2
        (reindex dvColumn [1, 0]) =
      reindex
        (applyKernelStage FilterType.blueprint (fun _ => 0) (fun _ => false) 1 2 dvColumn)
        [1, 0] :=
  c3_pure_kernels_commute FilterType.blueprint (by decide) (fun _ => 0)
    (fun _ => false) 1 2 dvColumn [1, 0] (by decide)

/-- C5: for every one of the 17 presets, on any buffer whose channels are
8-bit values, every channel of every output pixel of the kernel stage
lies in `[0,255]` (channels are naturals, so only the upper bound is
substantive; it comes from the clamped stores). -/
theorem c5_clamping_invariant (p : FilterType) (noise : ℕ → ℚ) (jam : ℕ → Bool)
    (w h : ℕ) (l : List RGBA)
    (hl : ∀ q ∈ l, q.r ≤ 255 ∧ q.g ≤ 255 ∧ q.b ≤ 255 ∧ q.a ≤ 255) :
    ∀ q ∈ applyKernelStage p noise jam w h l,
      q.r ≤ 255 ∧ q.g ≤ 255 ∧ q.b ≤ 255 ∧ q.a ≤ 255 := by
  have hget : ∀ i, (l.getD i rgba0).r ≤ 255 ∧ (l.getD i rgba0).g ≤ 255 ∧
      (l.getD i rgba0).b ≤ 255 ∧ (l.getD i rgba0).a ≤ 255 := by
    intro i
    rcases getD_mem_or_default l i rgba0 with hm | hd
    · exact hl _ hm
    · rw [hd]
      exact ⟨Nat.zero_le 255, Nat.zero_le 255, Nat.zero_le 255, Nat.zero_le 255⟩
  intro q hq
  cases p
  case agedGazette =>
    simp only [applyKernelStage, applyAgedGazette, mapNoise, List.mem_map,
      List.mem_range] at hq
    obtain ⟨i, hi, rfl⟩ := hq
    exact ⟨clamp8_le _, clamp8_le _, clamp8_le _, (hget i).2.2.2⟩
  case newspaperBW =>
    simp only [applyKernelStage, applyNewspaperBW, mapNoise, List.mem_map,
      List.mem_range] at hq
    obtain ⟨i, hi, rfl⟩ := hq
    exact ⟨clamp8_le _, clamp8_le _, clamp8_le _, (hget i).2.2.2⟩
  case seventiesMag =>
    simp only [applyKernelStage, apply70sMagazine, List.mem_map] at hq
    obtain ⟨x, hx, rfl⟩ := hq
    exact ⟨clamp8_le _, clamp8_le _, clamp8_le _, (hl x hx).2.2.2⟩
  case eightiesPop =>
    simp only [applyKernelStage, apply80sGlossy, List.mem_map] at hq
    obtain ⟨x, hx, rfl⟩ := hq
    exact ⟨clamp8_le _, clamp8_le _, clamp8_le _, (hl x hx).2.2.2⟩
  case ninetiesWashed =>
    simp only [applyKernelStage, apply90sGrunge, List.mem_map] at hq
    obtain ⟨x, hx, rfl⟩ := hq
    exact ⟨clamp8_le _, clamp8_le _, clamp8_le _, (hl x hx).2.2.2⟩
  case badPhotocopy =>
    simp only [applyKernelStage, applyBadPhotocopy, mapNoise, List.mem_map,
      List.mem_range] at hq
    obtain ⟨i, hi, rfl⟩ := hq
    exact ⟨clamp8_le _, clamp8_le _, clamp8_le _, (hget i).2.2.2⟩
  case mimeograph =>
    simp only [applyKernelStage, applyMimeograph, mapNoise, List.mem_map,
      List.mem_range] at hq
    obtain ⟨i, hi, rfl⟩ := hq
    exact ⟨clamp8_le _, clamp8_le _, clamp8_le _, (hget i).2.2.2⟩
  case blueprint =>
    simp only [applyKernelStage, applyBlueprint, List.mem_map] at hq
    obtain ⟨x, hx, rfl⟩ := hq
    exact ⟨clamp8_le _, clamp8_le _, clamp8_le _, (hl x hx).2.2.2⟩
  case thermal =>
    simp only [applyKernelStage, applyThermal, List.mem_map, List.mem_range] at hq
    obtain ⟨i, hi, rfl⟩ := hq
    exact ⟨clamp8_le _, clamp8_le _, clamp8_le _, (hget i).2.2.2⟩
  case dvCam =>
    simp only [applyKernelStage, applyDV, List.mem_map, List.mem_range] at hq
    obtain ⟨i, hi, rfl⟩ := hq
    exact ⟨clamp8_le _, clamp8_le _, clamp8_le _, (hget i).2.2.2⟩
  case comics60s =>
    simp only [applyKernelStage, applyComics60s, List.mem_map, List.mem_range] at hq
    obtain ⟨i, hi, rfl⟩ := hq
    exact ⟨clamp8_le _, clamp8_le _, clamp8_le _, (hget i).2.2.2⟩
  case polaroid1 =>
    simp only [applyKernelStage, applyPolaroid1, List.mem_map] at hq
    obtain ⟨x, hx, rfl⟩ := hq
    exact ⟨clamp8_le _, clamp8_le _, clamp8_le _, (hl x hx).2.2.2⟩
  case polaroid2 =>
    simp only [applyKernelStage, applyPolaroid2, List.mem_map] at hq
    obtain ⟨x, hx, rfl⟩ := hq
    exact ⟨clamp8_le _, clamp8_le _, clamp8_le _, (hl x hx).2.2.2⟩
  case polaroid3 =>
    simp only [applyKernelStage, applyPolaroid3, List.mem_map] at hq
    obtain ⟨x, hx, rfl⟩ := hq
    exact ⟨clamp8_le _, clamp8_le _, clamp8_le _, (hl x hx).2.2.2⟩
  case misaligned =>
    simp only [applyKernelStage, applyMisaligned, List.mem_map, List.mem_range] at hq
    obtain ⟨i, hi, rfl⟩ := hq
    refine ⟨?_, (hget i).2.1, ?_, (hget i).2.2.2⟩
    · dsimp only
      split
      · exact (hget _).1
      · exact (hget i).1
    · dsimp only
      split
      · exact (hget _).2.2.1
      · exact (hget i).2.2.1
  case vhsWorn =>
    simp only [applyKernelStage, applyVHS, List.mem_map, List.mem_range] at hq
    obtain ⟨i, hi, rfl⟩ := hq
    exact ⟨clamp8_le _, clamp8_le _, clamp8_le _, (hget i).2.2.2⟩
  case comics80s =>
    simp only [applyKernelStage, applyComics80s, List.mem_map, List.mem_range] at hq
    obtain ⟨i, hi, rfl⟩ := hq
    rcases Bool.eq_false_or_eq_true (comics80Edge w h l (i % w) (i / w)) with hc | hc
    · simp only [hc, if_true]
      exact ⟨by omega, by omega, by omega, (hget i).2.2.2⟩
    · simp only [hc, Bool.false_eq_true, if_false]
      exact ⟨clamp8_le _, clamp8_le _, clamp8_le _, (hget i).2.2.2⟩

/-- Witness for C5: the 80s-pop stage on a concrete one-pixel buffer. -/
theorem c5_witness :
    ((applyKernelStage FilterType.eightiesPop (fun _ => 0) (fun _ => false) 1 1
        ([⟨250, 3, 7, 255⟩] : List RGBA)).getD 0 rgba0).r ≤ 255 ∧
    ((applyKernelStage FilterType.eightiesPop (fun _ => 0) (fun _ => false) 1 1
        ([⟨250, 3, 7, 255⟩] : List RGBA)).getD 0 rgba0).g ≤ 255 ∧
    ((applyKernelStage FilterType.eightiesPop (fun _ => 0) (fun _ => false) 1 1
        ([⟨250, 3, 7, 255⟩] : List RGBA)).getD 0 rgba0).b ≤ 255 ∧
    ((applyKernelStage FilterType.eightiesPop (fun _ => 0) (fun _ => false) 1 1
        ([⟨250, 3, 7, 255⟩] : List RGBA)).getD 0 rgba0).a ≤ 255 :=
  c5_clamping_invariant FilterType.eightiesPop (fun _ => 0) (fun _ => false) 1 1
    ([⟨250, 3, 7, 255⟩] : List RGBA) (by decide) _
    (by with_unfolding_all decide)
